import Mathlib

/-!
# GeoSnap: EXIF GPS extraction and export pipeline, shallow embedding

This file embeds the core of the GeoSnap repository in Lean 4:
the coordinate converter (`convert_to_degrees` / `get_coordinates`),
the extraction orchestrator loops, and the three export serializers,
in both their desktop (`main.py`, prefixed `main_`) and web
(`streamlit_app.py`, prefixed `st_`) variants.  Python machine floats are
modelled by `ℚ` (every numeric value appearing in the verified claims is a
short decimal, exactly representable in binary floating point, so rational
arithmetic agrees with the float arithmetic of the source on all of them).
An uncaught Python exception is modelled by `Except.error` carrying the
exception's name; `Option` models a fallible computation whose failure is
caught and converted to `None` by the source.
-/

/-- A raw EXIF GPS numeric component as the source's `to_float` receives it:
either a value on which Python's `float(r)` succeeds (an `IFDRational` or a
plain number, modelled by its rational value), or a `(numerator, denominator)`
tuple pair, on which `float(r)` raises `TypeError`. -/
inductive ExifRat where
  | numeric (q : ℚ)
  | pair (num den : ℤ)
deriving DecidableEq, Repr

/-- A degrees/minutes/seconds magnitude: the ordered triple of raw rational
components stored under `GPSLatitude` / `GPSLongitude`. -/
abbrev ExifTriple := ExifRat × ExifRat × ExifRat

/-- The GPS sub-dictionary of an EXIF tag set: the four tags the converter
reads.  `none` models an absent key (`dict.get` returning `None`). -/
structure GpsBlock where
  lat : Option ExifTriple
  latRef : Option String
  lon : Option ExifTriple
  lonRef : Option String
deriving DecidableEq, Repr

/-- The EXIF tag dictionary as the converter sees it: only the `GPSInfo`
entry is consulted.  `gpsInfo = none` models a tag set without a (truthy)
GPS sub-dictionary. -/
structure ExifData where
  gpsInfo : Option GpsBlock
deriving DecidableEq, Repr

/-- `main.py`'s inner `to_float`: `float(r)` is tried first (succeeds exactly
on `numeric`), and on `TypeError`/`ValueError` the fallback `r[0] / r[1]`
runs with no zero-denominator guard, so a pair with denominator 0 raises an
uncaught `ZeroDivisionError`. -/
def main_to_float : ExifRat → Except String ℚ
  | .numeric q => .ok q
  | .pair n d => if d = 0 then .error "ZeroDivisionError" else .ok ((n : ℚ) / (d : ℚ))

/-- `main.py`'s `convert_to_degrees`: resolve the three components in order
(degrees, minutes, seconds), propagating any uncaught exception, and return
`d + m/60 + s/3600`. -/
def main_convert_to_degrees (v : ExifTriple) : Except String ℚ :=
  match main_to_float v.1 with
  | .error e => .error e
  | .ok d =>
    match main_to_float v.2.1 with
    | .error e => .error e
    | .ok m =>
      match main_to_float v.2.2 with
      | .error e => .error e
      | .ok s => .ok (d + m / 60 + s / 3600)

/-- `streamlit_app.py`'s inner `to_float`: `float(r)` first; a tuple pair is
divided only when its denominator is non-zero, every other case raises
`ValueError`, which the caller catches — so failure is modelled by `none`. -/
def st_to_float : ExifRat → Option ℚ
  | .numeric q => some q
  | .pair n d => if d = 0 then none else some ((n : ℚ) / (d : ℚ))

/-- `streamlit_app.py`'s `convert_to_degrees`: as in `main.py`, but a zero
denominator surfaces as a raised-and-later-caught `ValueError` (`none`). -/
def st_convert_to_degrees (v : ExifTriple) : Option ℚ :=
  match st_to_float v.1 with
  | none => none
  | some d =>
    match st_to_float v.2.1 with
    | none => none
    | some m =>
      match st_to_float v.2.2 with
      | none => none
      | some s => some (d + m / 60 + s / 3600)

/-- `main.py`'s `get_coordinates`: requires a truthy `GPSInfo` block and all
four tags truthy (a present triple is a non-empty tuple, hence truthy; a
reference string must be non-empty), converts latitude then longitude —
any exception escaping `convert_to_degrees` propagates uncaught — and
negates when the reference differs from `'N'` / `'E'`. -/
def main_get_coordinates (e : ExifData) : Except String (Option (ℚ × ℚ)) :=
  match e.gpsInfo with
  | none => .ok none
  | some gps =>
    match gps.lat, gps.lon, gps.latRef, gps.lonRef with
    | some lm, some lom, some sr, some er =>
      if sr = "" ∨ er = "" then .ok none
      else
        match main_convert_to_degrees lm with
        | .error msg => .error msg
        | .ok la0 =>
          match main_convert_to_degrees lom with
          | .error msg => .error msg
          | .ok lo0 =>
            .ok (some ((if sr = "N" then la0 else -la0), (if er = "E" then lo0 else -lo0)))
    | _, _, _, _ => .ok none

/-- `streamlit_app.py`'s `get_coordinates`: same structure, but the whole
conversion sits in a `try` whose `except` clauses return `None`, so a
malformed component yields `none` instead of an uncaught exception; a falsy
`exif_data` (`None` or empty) also yields `none`. -/
def st_get_coordinates : Option ExifData → Option (ℚ × ℚ)
  | none => none
  | some e =>
    match e.gpsInfo with
    | none => none
    | some gps =>
      match gps.lat, gps.lon, gps.latRef, gps.lonRef with
      | some lm, some lom, some sr, some er =>
        if sr = "" ∨ er = "" then none
        else
          match st_convert_to_degrees lm with
          | none => none
          | some la0 =>
            match st_convert_to_degrees lom with
            | none => none
            | some lo0 =>
              some ((if sr = "N" then la0 else -la0), (if er = "E" then lo0 else -lo0))
      | _, _, _, _ => none

/-- One item of an extraction batch: the display filename together with the
EXIF tag set its image yields.  Opening and decoding the image file is I/O
outside the embedding; `exif = none` models a falsy tag dictionary (empty,
or — in the web app — a read failure that `get_exif_data` converted to
`None`). -/
structure BatchItem where
  filename : String
  exif : Option ExifData
deriving DecidableEq, Repr

/-- A row of `main.py`'s accumulated coordinate list: the 4-tuple
`(filename, lat, lon, "")` appended by `extract_coordinates`. -/
structure CoordRow where
  fn : String
  lat : ℚ
  lon : ℚ
  date : String
deriving DecidableEq, Repr

/-- Python's `str.lower`, modelled character-wise (`Char.toLower` lowercases
the ASCII letters, which covers the filenames and tag values this pipeline
handles). -/
def pyLower (s : String) : String :=
  String.mk (s.data.map Char.toLower)

/-- Python's `str.endswith(suffix)`: the suffix test on the character
sequence. -/
def pyEndsWith (s suffix : String) : Bool :=
  suffix.data.isSuffixOf s.data

/-- `main.py`'s filename filter: `filename.lower().endswith(('jpg', 'jpeg',
'png'))` — note the suffixes carry no dot. -/
def main_ext_ok (name : String) : Bool :=
  pyEndsWith (pyLower name) "jpg" || pyEndsWith (pyLower name) "jpeg" ||
    pyEndsWith (pyLower name) "png"

/-- `streamlit_app.py`'s filename filter: `uploaded_file.name.lower()
.endswith(('.jpg', '.jpeg', '.png'))` — dotted suffixes. -/
def st_ext_ok (name : String) : Bool :=
  pyEndsWith (pyLower name) ".jpg" || pyEndsWith (pyLower name) ".jpeg" ||
    pyEndsWith (pyLower name) ".png"

/-- One iteration of `main.py`'s extraction loop body: filter by extension,
skip falsy EXIF data, append `(filename, lat, lon, "")` on success; an
exception raised by `get_coordinates` propagates out of the loop. -/
def main_process (acc : List CoordRow) (it : BatchItem) : Except String (List CoordRow) :=
  if main_ext_ok it.filename then
    match it.exif with
    | none => .ok acc
    | some e =>
      match main_get_coordinates e with
      | .error msg => .error msg
      | .ok none => .ok acc
      | .ok (some (la, lo)) => .ok (acc ++ [⟨it.filename, la, lo, ""⟩])
  else .ok acc

/-- `main.py`'s extraction loop over a batch (the `for filename in
os.listdir` body of `extract_coordinates`): items are processed in order and
an uncaught exception aborts the rest of the batch. -/
def main_extract (items : List BatchItem) : Except String (List CoordRow) :=
  items.foldl
    (fun r it =>
      match r with
      | .error msg => .error msg
      | .ok acc => main_process acc it)
    (.ok [])

/-- One iteration of `streamlit_app.py`'s extraction loop body: filter by
dotted extension, skip falsy EXIF data, append `(filename, lat, lon)` when
`get_coordinates` returns a pair. -/
def st_process (acc : List (String × ℚ × ℚ)) (it : BatchItem) : List (String × ℚ × ℚ) :=
  if st_ext_ok it.filename then
    match it.exif with
    | none => acc
    | some e =>
      match st_get_coordinates (some e) with
      | none => acc
      | some (la, lo) => acc ++ [(it.filename, la, lo)]
  else acc

/-- `streamlit_app.py`'s extraction loop over the uploaded files: per-item
failures are caught inside `get_coordinates`, so the loop always completes. -/
def st_extract (items : List BatchItem) : List (String × ℚ × ℚ) :=
  items.foldl st_process []

/-- Zero-pad a digit string on the left to length `k`. -/
def padZeros (s : String) (k : Nat) : String :=
  String.mk (List.replicate (k - s.length) '0') ++ s

/-- Drop trailing `'0'` characters, keeping at least one character. -/
def stripTrailingZeros (s : String) : String :=
  let l := s.toList.reverse.dropWhile (fun c => c == '0')
  if l.isEmpty then "0" else String.mk l.reverse

/-- How Python's `str()` renders the floats this pipeline produces: for a
value that is exactly a short decimal (denominator dividing a power of ten,
as every value in the verified claims is), `repr` prints the sign, the
integer part, a dot, and the fractional digits with trailing zeros removed —
`str(12.5) = "12.5"`, `str(1.0) = "1.0"`, `str(-1.25) = "-1.25"`. -/
def pyFloatStr (q : ℚ) : String :=
  let sign := if q < 0 then "-" else ""
  let n := q.num.natAbs
  let d := q.den
  let k := ((List.range 18).find? (fun k => 10 ^ k % d == 0)).getD 17
  let scaled := n * 10 ^ k / d
  let ip := scaled / 10 ^ k
  let fp := scaled % 10 ^ k
  let frac := if fp = 0 then "0" else stripTrailingZeros (padZeros (toString fp) k)
  sign ++ toString ip ++ "." ++ frac

/-- Double every `'"'` in a character sequence, as `csv.writer` escapes
quotes inside a quoted cell. -/
def csvEscape : List Char → List Char
  | [] => []
  | c :: rest => (if c == '"' then [c, c] else [c]) ++ csvEscape rest

/-- One cell of a CSV row as Python's `csv.writer` (default dialect) emits
it: quoted, with inner quotes doubled, exactly when the text contains a
delimiter, quote or line break. -/
def csvCell (s : String) : String :=
  if s.data.any (fun c => c == ',' || c == '"' || c == '\n' || c == '\r') then
    "\"" ++ String.mk (csvEscape s.data) ++ "\""
  else s

/-- Join strings with a separator (Python's `sep.join`). -/
def joinSep (sep : String) : List String → String
  | [] => ""
  | [x] => x
  | x :: xs => x ++ sep ++ joinSep sep xs

/-- One CSV line (without its `\r\n` terminator): the cells joined by the
comma delimiter. -/
def csvLine (cells : List String) : String :=
  joinSep "," (cells.map csvCell)

/-- `main.py`'s `save_to_csv`, modelled as the list of rows handed to
`writer.writerow`: the header row, then one `[filename, str(lat), str(lon)]`
row per coordinate in set order (the 4th tuple component is ignored). -/
def save_to_csv (coords : List CoordRow) : List (List String) :=
  ["filename", "latitude", "longitude"] ::
    coords.map (fun c => [c.fn, pyFloatStr c.lat, pyFloatStr c.lon])

/-- `streamlit_app.py`'s `save_to_csv_bytes`, modelled as the list of text
lines of the produced file (each line is `\r\n`-terminated in the UTF-8
byte payload): header first, then one line per coordinate triple. -/
def save_to_csv_bytes (coords : List (String × ℚ × ℚ)) : List String :=
  (["filename", "latitude", "longitude"] ::
    coords.map (fun t => [t.1, pyFloatStr t.2.1, pyFloatStr t.2.2])).map csvLine

/-- A named point placemark of a KML document: the `name` and the `coords`
list passed to `simplekml`'s `newpoint`, whose entries are `(x, y)` pairs. -/
structure KmlPoint where
  name : String
  coords : List (ℚ × ℚ)
deriving DecidableEq, Repr

/-- `main.py`'s `save_to_kml`, modelled as the placemark list of the KML
document: one point per coordinate with `coords=[(lon, lat)]`. -/
def save_to_kml (coords : List CoordRow) : List KmlPoint :=
  coords.map (fun c => ⟨c.fn, [(c.lon, c.lat)]⟩)

/-- `streamlit_app.py`'s `save_to_kml_bytes`, modelled as the placemark list
of the KML document it serializes. -/
def save_to_kml_bytes (coords : List (String × ℚ × ℚ)) : List KmlPoint :=
  coords.map (fun t => ⟨t.1, [(t.2.2, t.2.1)]⟩)

/-- The state of a `shapefile.Writer`: the declared fields (name and type
character), the point shapes written by `shp.point(x, y)` in order, and the
attribute records written by `shp.record(...)` in order. -/
structure ShpWriter where
  fields : List (String × Char)
  shapes : List (ℚ × ℚ)
  records : List String
deriving DecidableEq, Repr

/-- One iteration of the shapefile export loops: `shp.point(lon, lat)`
followed by `shp.record(fn)`. -/
def shp_add (w : ShpWriter) (fn : String) (lat lon : ℚ) : ShpWriter :=
  { w with shapes := w.shapes ++ [(lon, lat)], records := w.records ++ [fn] }

/-- `main.py`'s `save_to_shapefile`: declare the single `filename` text
field, write one point + record per coordinate, and write a `.prj` sidecar
whose text is `"EPSG:4326"`. -/
def save_to_shapefile (coords : List CoordRow) : ShpWriter × String :=
  (coords.foldl (fun w c => shp_add w c.fn c.lat c.lon)
    { fields := [("filename", 'C')], shapes := [], records := [] },
   "EPSG:4326")

/-- The WGS-84 well-known-text emitted by `streamlit_app.py` as the `.prj`
member of the shapefile bundle. -/
def wgs84Wkt : String :=
  "GEOGCS[\"GCS_WGS_1984\",DATUM[\"D_WGS_1984\",SPHEROID[\"WGS_1984\",6378137,298.257223563]],PRIMEM[\"Greenwich\",0],UNIT[\"Degree\",0.017453292519943295]]"

/-- `streamlit_app.py`'s `save_to_shapefile_bytes`: same writer content as
the desktop variant (over 3-tuples), bundled with the WGS-84 WKT `.prj`
payload. -/
def save_to_shapefile_bytes (coords : List (String × ℚ × ℚ)) : ShpWriter × String :=
  (coords.foldl (fun w t => shp_add w t.1 t.2.1 t.2.2)
    { fields := [("filename", 'C')], shapes := [], records := [] },
   wgs84Wkt)

/-- The spec's filter, stated in its own words for comparison with the code:
"accept only recognized image extensions (jpg, jpeg, png, case-insensitive)",
i.e. the lowercased filename carries one of the dotted extensions `.jpg`,
`.jpeg`, `.png`. -/
def spec_hasRecognizedImageExtension (name : String) : Bool :=
  pyEndsWith (pyLower name) ".jpg" || pyEndsWith (pyLower name) ".jpeg" ||
    pyEndsWith (pyLower name) ".png"

/-- The spec's concrete GpsBlock: latitude ((10,1),(30,1),(0,1)) S,
longitude ((20,1),(15,1),(0,1)) E. -/
def blkConcrete : GpsBlock :=
  ⟨some (.pair 10 1, .pair 30 1, .pair 0 1), some "S",
   some (.pair 20 1, .pair 15 1, .pair 0 1), some "E"⟩

/-- A well-formed GPS block converting to (1.0, 2.0). -/
def blkA : GpsBlock :=
  ⟨some (.pair 1 1, .pair 0 1, .pair 0 1), some "N",
   some (.pair 2 1, .pair 0 1, .pair 0 1), some "E"⟩

/-- A GPS block whose latitude degrees component is the rational pair (1, 0):
denominator zero. -/
def blkZeroDen : GpsBlock :=
  ⟨some (.pair 1 0, .pair 0 1, .pair 0 1), some "N",
   some (.pair 5 1, .pair 0 1, .pair 0 1), some "E"⟩

/-- A well-formed GPS block converting to (3.0, 4.0). -/
def blkB : GpsBlock :=
  ⟨some (.pair 3 1, .pair 0 1, .pair 0 1), some "N",
   some (.pair 4 1, .pair 0 1, .pair 0 1), some "E"⟩

/-- A three-item batch in which exactly the middle item carries a
zero-denominator rational component and the other two are valid. -/
def batchZeroDen : List BatchItem :=
  [⟨"a.jpg", some ⟨some blkA⟩⟩, ⟨"b.jpg", some ⟨some blkZeroDen⟩⟩,
   ⟨"c.jpg", some ⟨some blkB⟩⟩]

/-- A GPS block with both magnitudes present but no latitude hemisphere
flag. -/
def blkNoLatRef : GpsBlock :=
  ⟨some (.pair 7 1, .pair 0 1, .pair 0 1), none,
   some (.pair 8 1, .pair 0 1, .pair 0 1), some "E"⟩

/-- The spec's three-file scenario: file A valid and converting to
(1.0, 2.0), file B with no GPS block, file C missing its latitude
hemisphere flag. -/
def batchThreeFiles : List BatchItem :=
  [⟨"A.jpg", some ⟨some blkA⟩⟩, ⟨"B.jpg", some ⟨none⟩⟩,
   ⟨"C.jpg", some ⟨some blkNoLatRef⟩⟩]

/-- A GPS block the converter accepts whose magnitudes are 1000 and 2000
degrees — far outside the [-90,90] / [-180,180] coordinate ranges. -/
def blkOutOfRange : GpsBlock :=
  ⟨some (.pair 1000 1, .pair 0 1, .pair 0 1), some "N",
   some (.pair 2000 1, .pair 0 1, .pair 0 1), some "E"⟩

/-- A degrees/minutes/seconds magnitude each of whose components resolves
(in the `main.py` sense, hence — by `st_to_float_eq_toOption` — also in the
web-app sense) to a non-negative rational. -/
def ResolvesNonneg (v : ExifTriple) : Prop :=
  ∃ d m s, main_to_float v.1 = .ok d ∧ main_to_float v.2.1 = .ok m ∧
    main_to_float v.2.2 = .ok s ∧ 0 ≤ d ∧ 0 ≤ m ∧ 0 ≤ s

/-- The two `to_float` variants agree: the web-app version returns exactly
the value of the desktop version with the exception discarded. -/
theorem st_to_float_eq_toOption (r : ExifRat) :
    st_to_float r = (main_to_float r).toOption := by
  cases r with
  | numeric q => rfl
  | pair n d =>
    by_cases h : d = 0 <;> simp [st_to_float, main_to_float, h, Except.toOption]

/-- The two `convert_to_degrees` variants agree in the same sense. -/
theorem st_convert_eq_toOption (v : ExifTriple) :
    st_convert_to_degrees v = (main_convert_to_degrees v).toOption := by
  unfold st_convert_to_degrees main_convert_to_degrees
  rw [st_to_float_eq_toOption, st_to_float_eq_toOption, st_to_float_eq_toOption]
  cases main_to_float v.1 <;> cases main_to_float v.2.1 <;> cases main_to_float v.2.2 <;>
    simp [Except.toOption]

/-- A magnitude whose components all resolve non-negatively converts to a
non-negative decimal-degree value. -/
theorem convert_nonneg (v : ExifTriple) (h : ResolvesNonneg v) :
    ∃ q, main_convert_to_degrees v = .ok q ∧ 0 ≤ q := by
  obtain ⟨d, m, s, hd, hm, hs, h0d, h0m, h0s⟩ := h
  refine ⟨d + m / 60 + s / 3600, ?_, by positivity⟩
  unfold main_convert_to_degrees
  rw [hd, hm, hs]

/-- Folding `shp_add` accumulates one `(lon, lat)` point and one `filename`
record per input, in order, leaving the declared fields unchanged. -/
theorem shp_foldl {α : Type} (fn : α → String) (la lo : α → ℚ)
    (l : List α) (w : ShpWriter) :
    l.foldl (fun w x => shp_add w (fn x) (la x) (lo x)) w =
      ⟨w.fields, w.shapes ++ l.map (fun x => (lo x, la x)), w.records ++ l.map fn⟩ := by
  induction l generalizing w with
  | nil => simp
  | cons x xs ih =>
    rw [List.foldl_cons, ih]
    simp [shp_add]

/-- Items rejected by the desktop extension filter do not influence the
desktop extraction result. -/
theorem main_extract_filter (items : List BatchItem) :
    main_extract (items.filter (fun it => main_ext_ok it.filename)) =
      main_extract items := by
  unfold main_extract
  generalize (Except.ok [] : Except String (List CoordRow)) = init
  induction items generalizing init with
  | nil => rfl
  | cons it its ih =>
    by_cases h : main_ext_ok it.filename
    · rw [List.filter_cons_of_pos (p := fun x : BatchItem => main_ext_ok x.filename) h,
        List.foldl_cons, List.foldl_cons, ih]
    · rw [List.filter_cons_of_neg (p := fun x : BatchItem => main_ext_ok x.filename) h,
        List.foldl_cons, ih]
      congr 1
      cases init with
      | error msg => rfl
      | ok acc => simp [main_process, h]

/-- Items rejected by the web extension filter do not influence the web
extraction result. -/
theorem st_extract_filter (items : List BatchItem) :
    st_extract (items.filter (fun it => st_ext_ok it.filename)) =
      st_extract items := by
  unfold st_extract
  generalize ([] : List (String × ℚ × ℚ)) = init
  induction items generalizing init with
  | nil => rfl
  | cons it its ih =>
    by_cases h : st_ext_ok it.filename
    · rw [List.filter_cons_of_pos (p := fun x : BatchItem => st_ext_ok x.filename) h,
        List.foldl_cons, List.foldl_cons, ih]
    · rw [List.filter_cons_of_neg (p := fun x : BatchItem => st_ext_ok x.filename) h,
        List.foldl_cons, ih]
      congr 1
      simp [st_process, h]

/-- C1: In a three-item batch whose middle item has a GPS rational component
given as the pair (1, 0) — denominator 0 — the desktop pipeline of `main.py`
does NOT isolate the failure: `convert_to_degrees` raises an uncaught
`ZeroDivisionError` that aborts the whole batch, contradicting the claimed
`MalformedCoordinate` skip.  The web pipeline of `streamlit_app.py` behaves
as the claim states: the conversion failure is caught, the other N−1 = 2
items survive in original order, and the malformed item contributes
nothing. -/
theorem c1_zero_denominator_crashes_desktop_batch :
    main_convert_to_degrees (.pair 1 0, .pair 0 1, .pair 0 1) = .error "ZeroDivisionError" ∧
    main_extract batchZeroDen = .error "ZeroDivisionError" ∧
    st_extract batchZeroDen = [("a.jpg", 1, 2), ("c.jpg", 3, 4)] := by
  refine ⟨by norm_num [main_convert_to_degrees, main_to_float], ?_, ?_⟩
  · norm_num [batchZeroDen, blkA, blkZeroDen, blkB, main_extract, main_process,
      main_get_coordinates, main_convert_to_degrees, main_to_float,
      List.foldl_cons, List.foldl_nil,
      show main_ext_ok "a.jpg" = true from by decide,
      show main_ext_ok "b.jpg" = true from by decide,
      show main_ext_ok "c.jpg" = true from by decide,
      show ("N" : String) ≠ "" from by decide, show ("E" : String) ≠ "" from by decide]
  · norm_num [batchZeroDen, blkA, blkZeroDen, blkB, st_extract, st_process,
      st_get_coordinates, st_convert_to_degrees, st_to_float,
      List.foldl_cons, List.foldl_nil,
      show st_ext_ok "a.jpg" = true from by decide,
      show st_ext_ok "b.jpg" = true from by decide,
      show st_ext_ok "c.jpg" = true from by decide,
      show ("N" : String) ≠ "" from by decide, show ("E" : String) ≠ "" from by decide]

/-- C2: the spec's concrete GpsBlock — latitude ((10,1),(30,1),(0,1)) S,
longitude ((20,1),(15,1),(0,1)) E — converts to exactly (-10.5, 20.25), in
both the desktop and the web variant of the Coordinate Converter. -/
theorem c2_concrete_block_converts_to_neg10_5_20_25 :
    main_get_coordinates ⟨some blkConcrete⟩ = .ok (some (-10.5, 20.25)) ∧
    st_get_coordinates (some ⟨some blkConcrete⟩) = some (-10.5, 20.25) := by
  constructor
  · norm_num [blkConcrete, main_get_coordinates, main_convert_to_degrees, main_to_float,
      show ("S" : String) ≠ "" from by decide, show ("E" : String) ≠ "" from by decide,
      show ("S" : String) ≠ "N" from by decide]
  · norm_num [blkConcrete, st_get_coordinates, st_convert_to_degrees, st_to_float,
      show ("S" : String) ≠ "" from by decide, show ("E" : String) ≠ "" from by decide,
      show ("S" : String) ≠ "N" from by decide]

/-- C8: each serializer applied to the empty CoordinateSet yields a valid
zero-feature output: a header-only tabular file, a KML document with no
placemarks, and a shapefile writer holding the declared `filename` field
but zero shapes and zero records, alongside its spatial-reference sidecar
text. -/
theorem c8_empty_coordinate_set_exports_are_valid_and_empty :
    save_to_csv [] = [["filename", "latitude", "longitude"]] ∧
    save_to_csv_bytes [] = ["filename,latitude,longitude"] ∧
    save_to_kml [] = [] ∧
    save_to_kml_bytes [] = [] ∧
    save_to_shapefile [] = (⟨[("filename", 'C')], [], []⟩, "EPSG:4326") ∧
    save_to_shapefile_bytes [] = (⟨[("filename", 'C')], [], []⟩, wgs84Wkt) :=
  ⟨rfl, by decide, rfl, rfl, rfl, rfl⟩

/-- C9: the tabular serialization of the one-element CoordinateSet
[("img1.jpg", 12.5, -1.25)] is exactly the header line
`filename,latitude,longitude` followed by the data line
`img1.jpg,12.5,-1.25`, and nothing else — in the web byte serializer and,
rendered line by line, in the desktop row serializer. -/
theorem c9_tabular_export_is_exactly_two_lines :
    save_to_csv_bytes [("img1.jpg", 12.5, -1.25)] =
      ["filename,latitude,longitude", "img1.jpg,12.5,-1.25"] ∧
    (save_to_csv [⟨"img1.jpg", 12.5, -1.25, ""⟩]).map csvLine =
      ["filename,latitude,longitude", "img1.jpg,12.5,-1.25"] := by
  have h1 : (12.5 : ℚ) = mkRat 25 2 := by rw [Rat.mkRat_eq_div]; norm_num
  have h2 : (-1.25 : ℚ) = mkRat (-5) 4 := by rw [Rat.mkRat_eq_div]; norm_num
  rw [h1, h2]
  exact ⟨by decide, by decide⟩

/-- Evaluation of both `get_coordinates` variants on a block whose four tags
are present and truthy and whose magnitudes convert successfully: nothing
else about the hemisphere strings is inspected, and the sign of each output
is decided solely by comparison with the single string `"N"` / `"E"`. -/
theorem get_coordinates_eval (lm lom : ExifTriple) (sr er : String) (qla qlo : ℚ)
    (hsr : sr ≠ "") (her : er ≠ "")
    (hla : main_convert_to_degrees lm = .ok qla)
    (hlo : main_convert_to_degrees lom = .ok qlo) :
    main_get_coordinates ⟨some ⟨some lm, some sr, some lom, some er⟩⟩ =
      .ok (some ((if sr = "N" then qla else -qla), (if er = "E" then qlo else -qlo))) ∧
    st_get_coordinates (some ⟨some ⟨some lm, some sr, some lom, some er⟩⟩) =
      some ((if sr = "N" then qla else -qla), (if er = "E" then qlo else -qlo)) := by
  constructor
  · simp only [main_get_coordinates, hla, hlo]
    rw [if_neg (not_or.mpr ⟨hsr, her⟩)]
  · simp only [st_get_coordinates, st_convert_eq_toOption, hla, hlo, Except.toOption]
    rw [if_neg (not_or.mpr ⟨hsr, her⟩)]

/-- C3: hemisphere sign law.  For every GpsBlock whose magnitudes are
non-negative resolvable rationals and whose hemisphere flags lie in {N,S}
and {E,W}, both converters succeed, agree, and the produced latitude is
≤ 0 under S and ≥ 0 under N; symmetrically, longitude is ≤ 0 under W and
≥ 0 under E. -/
theorem c3_hemisphere_sign_law (lm lom : ExifTriple) (sr er : String)
    (hlm : ResolvesNonneg lm) (hlom : ResolvesNonneg lom)
    (hsr : sr = "N" ∨ sr = "S") (her : er = "E" ∨ er = "W") :
    ∃ la lo,
      main_get_coordinates ⟨some ⟨some lm, some sr, some lom, some er⟩⟩ =
        .ok (some (la, lo)) ∧
      st_get_coordinates (some ⟨some ⟨some lm, some sr, some lom, some er⟩⟩) =
        some (la, lo) ∧
      (sr = "S" → la ≤ 0) ∧ (sr = "N" → 0 ≤ la) ∧
      (er = "W" → lo ≤ 0) ∧ (er = "E" → 0 ≤ lo) := by
  obtain ⟨qla, hla, h0la⟩ := convert_nonneg lm hlm
  obtain ⟨qlo, hlo, h0lo⟩ := convert_nonneg lom hlom
  have hsr' : sr ≠ "" := by rcases hsr with h | h <;> subst h <;> decide
  have her' : er ≠ "" := by rcases her with h | h <;> subst h <;> decide
  obtain ⟨hmain, hst⟩ := get_coordinates_eval lm lom sr er qla qlo hsr' her' hla hlo
  refine ⟨_, _, hmain, hst, ?_, ?_, ?_, ?_⟩
  · intro h; subst h; rw [if_neg (by decide)]; linarith
  · intro h; subst h; rw [if_pos rfl]; exact h0la
  · intro h; subst h; rw [if_neg (by decide)]; linarith
  · intro h; subst h; rw [if_pos rfl]; exact h0lo

/-- C3 witness: the sign law applied to the concrete block
((10,1),(30,1),(0,1)) S / ((20,1),(15,1),(0,1)) W. -/
theorem c3_hemisphere_sign_law_witness :
    ∃ la lo,
      main_get_coordinates ⟨some ⟨some (.pair 10 1, .pair 30 1, .pair 0 1), some "S",
        some (.pair 20 1, .pair 15 1, .pair 0 1), some "W"⟩⟩ = .ok (some (la, lo)) ∧
      st_get_coordinates (some ⟨some ⟨some (.pair 10 1, .pair 30 1, .pair 0 1), some "S",
        some (.pair 20 1, .pair 15 1, .pair 0 1), some "W"⟩⟩) = some (la, lo) ∧
      (("S" : String) = "S" → la ≤ 0) ∧ (("S" : String) = "N" → 0 ≤ la) ∧
      (("W" : String) = "W" → lo ≤ 0) ∧ (("W" : String) = "E" → 0 ≤ lo) :=
  c3_hemisphere_sign_law (.pair 10 1, .pair 30 1, .pair 0 1)
    (.pair 20 1, .pair 15 1, .pair 0 1) "S" "W"
    ⟨10, 30, 0, by norm_num [main_to_float], by norm_num [main_to_float],
      by norm_num [main_to_float], by norm_num, by norm_num, by norm_num⟩
    ⟨20, 15, 0, by norm_num [main_to_float], by norm_num [main_to_float],
      by norm_num [main_to_float], by norm_num, by norm_num, by norm_num⟩
    (Or.inr rfl) (Or.inr rfl)

/-- C7 counterexample: the converter accepts the GpsBlock with magnitudes
1000° and 2000° and produces the coordinate (1000, 2000), which lies far
outside [-90, 90] × [-180, 180] — no range validation is performed. -/
theorem c7_range_counterexample :
    main_get_coordinates ⟨some blkOutOfRange⟩ = .ok (some (1000, 2000)) ∧
    ¬((1000 : ℚ) ≤ 90) ∧ ¬((2000 : ℚ) ≤ 180) := by
  refine ⟨?_, by norm_num, by norm_num⟩
  norm_num [blkOutOfRange, main_get_coordinates, main_convert_to_degrees, main_to_float,
    show ("N" : String) ≠ "" from by decide, show ("E" : String) ≠ "" from by decide]

/-- C7 amended: the converter checks no ranges, so the produced coordinate
lies in [-90, 90] × [-180, 180] exactly when the unsigned magnitudes do:
for every accepted GpsBlock whose latitude magnitude resolves into [0, 90]
and whose longitude magnitude resolves into [0, 180], the result is in
range. -/
theorem c7_amended_range_from_magnitudes (lm lom : ExifTriple) (sr er : String)
    (qla qlo : ℚ)
    (hla : main_convert_to_degrees lm = .ok qla) (h0la : 0 ≤ qla) (h90 : qla ≤ 90)
    (hlo : main_convert_to_degrees lom = .ok qlo) (h0lo : 0 ≤ qlo) (h180 : qlo ≤ 180)
    (hsr : sr ≠ "") (her : er ≠ "") :
    ∃ la lo,
      main_get_coordinates ⟨some ⟨some lm, some sr, some lom, some er⟩⟩ =
        .ok (some (la, lo)) ∧
      st_get_coordinates (some ⟨some ⟨some lm, some sr, some lom, some er⟩⟩) =
        some (la, lo) ∧
      -90 ≤ la ∧ la ≤ 90 ∧ -180 ≤ lo ∧ lo ≤ 180 := by
  obtain ⟨hmain, hst⟩ := get_coordinates_eval lm lom sr er qla qlo hsr her hla hlo
  refine ⟨_, _, hmain, hst, ?_, ?_, ?_, ?_⟩ <;>
    (by_cases h : sr = "N" <;> by_cases h' : er = "E" <;> simp [h, h'] <;> linarith)

/-- C7 amended witness: the in-range law applied to the concrete block
((10,1),(30,1),(0,1)) S / ((20,1),(15,1),(0,1)) E. -/
theorem c7_amended_range_witness :
    ∃ la lo,
      main_get_coordinates ⟨some ⟨some (.pair 10 1, .pair 30 1, .pair 0 1), some "S",
        some (.pair 20 1, .pair 15 1, .pair 0 1), some "E"⟩⟩ = .ok (some (la, lo)) ∧
      st_get_coordinates (some ⟨some ⟨some (.pair 10 1, .pair 30 1, .pair 0 1), some "S",
        some (.pair 20 1, .pair 15 1, .pair 0 1), some "E"⟩⟩) = some (la, lo) ∧
      -90 ≤ la ∧ la ≤ 90 ∧ -180 ≤ lo ∧ lo ≤ 180 :=
  c7_amended_range_from_magnitudes (.pair 10 1, .pair 30 1, .pair 0 1)
    (.pair 20 1, .pair 15 1, .pair 0 1) "S" "E" 10.5 20.25
    (by norm_num [main_convert_to_degrees, main_to_float]) (by norm_num) (by norm_num)
    (by norm_num [main_convert_to_degrees, main_to_float]) (by norm_num) (by norm_num)
    (by decide) (by decide)

/-- C10: hemisphere flags are never validated against {N,S}/{E,W}: for every
block whose four tags are present and truthy and whose magnitudes resolve,
the converter succeeds (never rejects on account of the hemisphere value),
negating latitude exactly when the flag differs from the literal "N" and
longitude exactly when it differs from the literal "E". -/
theorem c10_hemisphere_flags_not_validated (lm lom : ExifTriple) (sr er : String)
    (qla qlo : ℚ) (hsr : sr ≠ "") (her : er ≠ "")
    (hla : main_convert_to_degrees lm = .ok qla)
    (hlo : main_convert_to_degrees lom = .ok qlo) :
    main_get_coordinates ⟨some ⟨some lm, some sr, some lom, some er⟩⟩ =
      .ok (some ((if sr = "N" then qla else -qla), (if er = "E" then qlo else -qlo))) ∧
    st_get_coordinates (some ⟨some ⟨some lm, some sr, some lom, some er⟩⟩) =
      some ((if sr = "N" then qla else -qla), (if er = "E" then qlo else -qlo)) :=
  get_coordinates_eval lm lom sr er qla qlo hsr her hla hlo

/-- C10 witness: with the invalid flags "n" (lowercase) and "x", the block
is not rejected and both coordinates are negated. -/
theorem c10_hemisphere_flags_not_validated_witness :
    main_get_coordinates ⟨some ⟨some (.pair 10 1, .pair 30 1, .pair 0 1), some "n",
      some (.pair 20 1, .pair 15 1, .pair 0 1), some "x"⟩⟩ =
      .ok (some ((if ("n" : String) = "N" then (10.5 : ℚ) else -10.5),
        (if ("x" : String) = "E" then (20.25 : ℚ) else -20.25))) ∧
    st_get_coordinates (some ⟨some ⟨some (.pair 10 1, .pair 30 1, .pair 0 1), some "n",
      some (.pair 20 1, .pair 15 1, .pair 0 1), some "x"⟩⟩) =
      some ((if ("n" : String) = "N" then (10.5 : ℚ) else -10.5),
        (if ("x" : String) = "E" then (20.25 : ℚ) else -20.25)) :=
  c10_hemisphere_flags_not_validated (.pair 10 1, .pair 30 1, .pair 0 1)
    (.pair 20 1, .pair 15 1, .pair 0 1) "n" "x" 10.5 20.25
    (by decide) (by decide)
    (by norm_num [main_convert_to_degrees, main_to_float])
    (by norm_num [main_convert_to_degrees, main_to_float])

/-- C4: coordinate ordering across exports.  For every CoordinateSet and
every position `i` in it, the KML serializer emits the i-th placemark with
coordinates `[(lon, lat)]` (longitude first), the shapefile serializer
writes `shp.point(lon, lat)` and `shp.record(filename)` at position `i`
(longitude first), while the CSV serializer writes the i-th data row as
`[filename, lat, lon]` (latitude before longitude) under the fixed header
row. -/
theorem c4_export_coordinate_order (coords : List CoordRow) (i : Nat) :
    (save_to_kml coords)[i]? =
      coords[i]?.map (fun c => ⟨c.fn, [(c.lon, c.lat)]⟩) ∧
    (save_to_shapefile coords).1.shapes[i]? =
      coords[i]?.map (fun c => (c.lon, c.lat)) ∧
    (save_to_shapefile coords).1.records[i]? = coords[i]?.map (fun c => c.fn) ∧
    (save_to_csv coords)[i + 1]? =
      coords[i]?.map (fun c => [c.fn, pyFloatStr c.lat, pyFloatStr c.lon]) ∧
    (save_to_csv coords)[0]? = some ["filename", "latitude", "longitude"] := by
  refine ⟨?_, ?_, ?_, ?_, ?_⟩
  · simp [save_to_kml]
  · simp [save_to_shapefile, shp_foldl]
  · simp [save_to_shapefile, shp_foldl]
  · simp [save_to_csv]
  · simp [save_to_csv]

/-- C5: a GpsBlock with a magnitude present but the corresponding hemisphere
flag missing converts to nothing in both pipeline variants (the image is
treated as having no usable GPS data), and in the spec's three-file scenario
— A valid yielding (1.0, 2.0), B with no GPS block, C missing its latitude
hemisphere flag — the extracted CoordinateSet is exactly [(A, 1.0, 2.0)]. -/
theorem c5_missing_hemisphere_flag_yields_no_coordinate (gps : GpsBlock)
    (h : (gps.lat ≠ none ∧ gps.latRef = none) ∨ (gps.lon ≠ none ∧ gps.lonRef = none)) :
    main_get_coordinates ⟨some gps⟩ = .ok none ∧
    st_get_coordinates (some ⟨some gps⟩) = none ∧
    main_extract batchThreeFiles = .ok [⟨"A.jpg", 1, 2, ""⟩] ∧
    st_extract batchThreeFiles = [("A.jpg", 1, 2)] := by
  obtain ⟨glat, glatRef, glon, glonRef⟩ := gps
  refine ⟨?_, ?_, ?_, ?_⟩
  · rcases h with ⟨-, hr⟩ | ⟨-, hr⟩ <;> simp only at hr <;> subst hr
    · cases glat <;> cases glon <;> cases glonRef <;> rfl
    · cases glat <;> cases glon <;> cases glatRef <;> rfl
  · rcases h with ⟨-, hr⟩ | ⟨-, hr⟩ <;> simp only at hr <;> subst hr
    · cases glat <;> cases glon <;> cases glonRef <;> rfl
    · cases glat <;> cases glon <;> cases glatRef <;> rfl
  · norm_num [batchThreeFiles, blkA, blkNoLatRef, main_extract, main_process,
      main_get_coordinates, main_convert_to_degrees, main_to_float,
      List.foldl_cons, List.foldl_nil,
      show main_ext_ok "A.jpg" = true from by decide,
      show main_ext_ok "B.jpg" = true from by decide,
      show main_ext_ok "C.jpg" = true from by decide,
      show ("N" : String) ≠ "" from by decide, show ("E" : String) ≠ "" from by decide]
  · norm_num [batchThreeFiles, blkA, blkNoLatRef, st_extract, st_process,
      st_get_coordinates, st_convert_to_degrees, st_to_float,
      List.foldl_cons, List.foldl_nil,
      show st_ext_ok "A.jpg" = true from by decide,
      show st_ext_ok "B.jpg" = true from by decide,
      show st_ext_ok "C.jpg" = true from by decide,
      show ("N" : String) ≠ "" from by decide, show ("E" : String) ≠ "" from by decide]

/-- C5 witness: the theorem applied to the scenario's own file-C block,
which has both magnitudes but no latitude hemisphere flag. -/
theorem c5_missing_hemisphere_flag_witness :
    main_get_coordinates ⟨some blkNoLatRef⟩ = .ok none ∧
    st_get_coordinates (some ⟨some blkNoLatRef⟩) = none ∧
    main_extract batchThreeFiles = .ok [⟨"A.jpg", 1, 2, ""⟩] ∧
    st_extract batchThreeFiles = [("A.jpg", 1, 2)] :=
  c5_missing_hemisphere_flag_yields_no_coordinate blkNoLatRef
    (Or.inl ⟨by decide, rfl⟩)

/-- C6 counterexample: the filename "datajpg" carries no recognized image
extension (no dot-extension at all), yet the desktop orchestrator of
`main.py` — whose filter tests the undotted character suffixes
('jpg', 'jpeg', 'png') — accepts it, reads it and converts it into a
coordinate instead of skipping it. -/
theorem c6_extension_filter_counterexample :
    spec_hasRecognizedImageExtension "datajpg" = false ∧
    main_ext_ok "datajpg" = true ∧
    main_extract [⟨"datajpg", some ⟨some blkA⟩⟩] = .ok [⟨"datajpg", 1, 2, ""⟩] := by
  refine ⟨by decide, by decide, ?_⟩
  norm_num [blkA, main_extract, main_process,
    main_get_coordinates, main_convert_to_degrees, main_to_float,
    List.foldl_cons, List.foldl_nil,
    show main_ext_ok "datajpg" = true from by decide,
    show ("N" : String) ≠ "" from by decide, show ("E" : String) ≠ "" from by decide]

/-- C6 amended: the web orchestrator's filter coincides exactly with the
spec's recognized-extension predicate (dotted .jpg/.jpeg/.png,
case-insensitive), and in both pipelines an item rejected by the pipeline's
own filter is skipped without affecting the extraction result; the desktop
filter, however, tests only the undotted character suffixes jpg/jpeg/png,
so filenames without a dot-extension (e.g. "datajpg") are also processed
there. -/
theorem c6_amended_extension_filtering :
    (∀ name, st_ext_ok name = spec_hasRecognizedImageExtension name) ∧
    (∀ items, main_extract (items.filter (fun it => main_ext_ok it.filename)) =
      main_extract items) ∧
    (∀ items, st_extract (items.filter (fun it => st_ext_ok it.filename)) =
      st_extract items) :=
  ⟨fun _ => rfl, main_extract_filter, st_extract_filter⟩
